import Mathlib

/-!
Verification of the booking core of `src/lambdas/booking/handler.py`
(ticket reservation / confirmation / cancellation engine).

Shallow embedding conventions:
* DynamoDB tables are association lists keyed by the source's primary keys;
  a conditional update (`ConditionExpression`) that fails, or targets an
  absent item, raises ConditionalCheckFailedException in the source and is
  reported as `false` / left as a no-op here, exactly as the source's
  `except ClientError` branches do.
* Python dicts whose keys may be absent are embedded with `Option` fields:
  `d.get(k)` is the field itself, `d[k]` on an absent key is a `KeyError`
  (it is *not* a `ClientError`, so `except ClientError` does not catch it).
* Timestamps are seconds as `Nat`; `timedelta(minutes=m)` is `m * 60`.
* The Redis cache is an association list from key strings to values; TTL
  expiry is modelled as absence of the entry (an expired entry and a
  missing entry are indistinguishable to the code).
* The distributed lock only serializes executions; in this sequential
  embedding the `with distributed_lock` body runs directly.
* SQS dispatch is a list of sent messages; a `ClientError` from
  `sqs.send_message` is driven by the `sqsFail` parameter and is swallowed
  by `send_to_queue` exactly as in the source.
-/

namespace BookingHandler

/-- Constant `RESERVATION_TIMEOUT_MINUTES = 5` (handler.py line 47). -/
def RESERVATION_TIMEOUT_MINUTES : Nat := 5

/-- Constant `MAX_TICKETS_PER_USER = 6` (handler.py line 48). -/
def MAX_TICKETS_PER_USER : Nat := 6

/-- An Event record: `event_id` and `status` (`"active"`, `"sold_out"`, ...). -/
structure EventRec where
  event_id : String
  status : String
deriving Repr, DecidableEq

/-- A Ticket record of the tickets table: composite key `(event_id, ticket_id)`,
`tier`, `price`, `seat_number`, `status` (`"available" | "reserved" | "sold"`),
and the `reserved_by` / `reserved_until` attributes that are present only while
reserved (absent attribute = `none`). -/
structure Ticket where
  event_id : String
  ticket_id : String
  tier : String
  price : Nat
  seat_number : String
  status : String
  reserved_by : Option String
  reserved_until : Option Nat
deriving Repr, DecidableEq

/-- The per-ticket snapshot dict built at handler.py lines 145-150:
`{'ticket_id': ..., 'tier': ..., 'price': ..., 'seat_number': ...}`.
The source does NOT put an `event_id` key into this dict; the `event_id`
field is therefore an `Option` recording whether the key is present, and the
reservation loop always builds it as `none`. -/
structure TicketSnapshot where
  ticket_id : String
  tier : String
  price : Nat
  seat_number : String
  event_id : Option String
deriving Repr, DecidableEq

/-- A Booking record (handler.py lines 161-172). -/
structure Booking where
  booking_id : String
  user_id : String
  event_id : String
  tickets : List TicketSnapshot
  total_amount : Nat
  status : String
  reserved_until : Nat
  created_at : Nat
  updated_at : Nat
  ttl : Nat
deriving Repr, DecidableEq

/-- The persistent store: events, tickets and bookings tables. -/
structure DB where
  events : List EventRec
  tickets : List Ticket
  bookings : List Booking
deriving Repr, DecidableEq

/-- A value stored in the Redis cache (keys are namespaced strings, so each
key only ever holds one shape of value). -/
inductive CacheVal where
  | ofBooking (b : Booking)
  | ofNat (n : Nat)
  | ofEvent (e : EventRec)
deriving Repr, DecidableEq

/-- Handler state: the store plus the cache.
Modelled from the spec: `lib.cache_utils.CacheUtils` offers get /
set-with-ttl / delete on a key-value cache (spec section 6); TTL expiry is
modelled as absence of the entry. -/
structure St where
  db : DB
  cache : List (String × CacheVal)
deriving Repr, DecidableEq

/-- `cache_utils.get key`. -/
def cacheGet (s : St) (k : String) : Option CacheVal :=
  (s.cache.find? (fun p => p.1 == k)).map (fun p => p.2)

/-- `cache_utils.set key value ttl` (overwrites any previous entry). -/
def cacheSet (s : St) (k : String) (v : CacheVal) : St :=
  { s with cache := (k, v) :: s.cache.filter (fun p => !(p.1 == k)) }

/-- `cache_utils.delete key`. -/
def cacheDelete (s : St) (k : String) : St :=
  { s with cache := s.cache.filter (fun p => !(p.1 == k)) }

/-- A message sent to an SQS queue by `send_to_queue`. -/
structure QMsg where
  queue_url : String
  action : String
  booking_id : String
  user_id : String
  amount : Option Nat
deriving Repr, DecidableEq

/-- Queue URL `BOOKING_QUEUE_URL` (opaque, from the environment). -/
def BOOKING_QUEUE_URL : String := "booking-queue-url"

/-- Queue URL `PAYMENT_QUEUE_URL` (opaque, from the environment). -/
def PAYMENT_QUEUE_URL : String := "payment-queue-url"

/-- The errors the handler raises; `keyError` is a plain Python `KeyError`
(caught by neither `except ClientError` nor the specific handlers, only by
the final generic `except Exception`). -/
inductive Err where
  | validationError (msg : String)
  | bookingError (msg : String)
  | ticketNotAvailableError (msg : String)
  | keyError (key : String)
deriving Repr, DecidableEq

/-- HTTP response bodies (only the fields the handler writes). -/
inductive RespBody where
  | err (msg : String)
  | reserveOk (booking_id : String) (status : String) (reserved_until : Nat)
      (tickets : List TicketSnapshot) (total_amount : Nat)
  | confirmOk (booking_id : String) (status : String)
  | bookingItem (b : Booking)
  | message (m : String)
deriving Repr, DecidableEq

/-- `create_response(status_code, body)` (handler.py lines 539-550). -/
structure Resp where
  statusCode : Nat
  body : RespBody
deriving Repr, DecidableEq

/-- `create_response` builds the HTTP response. -/
def create_response (status_code : Nat) (body : RespBody) : Resp :=
  { statusCode := status_code, body := body }

/-- Lookup of a ticket by its composite primary key. -/
def findTicket (db : DB) (eid tid : String) : Option Ticket :=
  db.tickets.find? (fun t => t.event_id == eid && t.ticket_id == tid)

/-- Point update of the ticket with the given key (no-op when absent;
ticket records are seeded before the handler runs). -/
def updateTicketRec (db : DB) (eid tid : String) (f : Ticket → Ticket) : DB :=
  { db with tickets :=
      db.tickets.map (fun t =>
        if t.event_id == eid && t.ticket_id == tid then f t else t) }

/-- Lookup of a booking in the bookings table by `booking_id`. -/
def findBookingDb (db : DB) (bid : String) : Option Booking :=
  db.bookings.find? (fun b => b.booking_id == bid)

/-- `table.put_item` on the bookings table: insert or replace by key. -/
def putBooking (db : DB) (b : Booking) : DB :=
  if db.bookings.any (fun x => x.booking_id == b.booking_id) then
    { db with bookings :=
        db.bookings.map (fun x => if x.booking_id == b.booking_id then b else x) }
  else
    { db with bookings := db.bookings ++ [b] }

/-- `get_available_tickets(event_id, tier, quantity)` (handler.py lines
353-370): index query with key condition `event_id = :event_id AND status =
:available`, `Limit = quantity * 2` applied to the key-condition matches,
then `FilterExpression tier = :tier` applied after the limit (DynamoDB
applies `Limit` before `FilterExpression`). -/
def get_available_tickets (db : DB) (eid tier : String) (quantity : Nat) :
    List Ticket :=
  ((db.tickets.filter
      (fun t => t.event_id == eid && t.status == "available")).take
    (quantity * 2)).filter (fun t => t.tier == tier)

/-- `reserve_ticket_in_db(event_id, ticket_id, user_id)` (handler.py lines
373-395): conditional update with `ConditionExpression status = :available`
that sets `status = reserved`, `reserved_by = user_id` and
`reserved_until = now + 5 minutes`; a failed condition (including an absent
item) raises ConditionalCheckFailedException, which the source converts to
`False`. -/
def reserve_ticket_in_db (eid tid uid : String) (now : Nat) (db : DB) :
    Bool × DB :=
  match findTicket db eid tid with
  | some t =>
      if t.status == "available" then
        (true, updateTicketRec db eid tid (fun tk =>
          { tk with status := "reserved", reserved_by := some uid,
                    reserved_until := some (now + RESERVATION_TIMEOUT_MINUTES * 60) }))
      else (false, db)
  | none => (false, db)

/-- `rollback_reservations(reserved_tickets, user_id)` (handler.py lines
398-415): for each snapshot dict, the key is built from
`ticket['event_id']` and `ticket['ticket_id']`; when the dict has no
`event_id` key this access raises `KeyError`, which `except ClientError`
does not catch, so it aborts the whole rollback.  When the key is present,
the update sets `status = available` and removes `reserved_by` /
`reserved_until` under `ConditionExpression reserved_by = :user_id`, and a
`ClientError` (failed condition or absent item) is swallowed.  Returns the
store after the writes performed so far plus the uncaught error, if any. -/
def rollback_reservations (reserved : List TicketSnapshot) (uid : String)
    (db : DB) : DB × Option Err :=
  match reserved with
  | [] => (db, none)
  | t :: rest =>
      match t.event_id with
      | none => (db, some (Err.keyError "event_id"))
      | some eid =>
          let db2 :=
            match findTicket db eid t.ticket_id with
            | some tk =>
                if tk.reserved_by == some uid then
                  updateTicketRec db eid t.ticket_id (fun x =>
                    { x with status := "available", reserved_by := none,
                             reserved_until := none })
                else db
            | none => db
          rollback_reservations rest uid db2

/-- `release_ticket(event_id, ticket_id)` (handler.py lines 508-519):
update with NO `ConditionExpression` — sets `status = available` and
removes `reserved_by` / `reserved_until` unconditionally (`ClientError`
swallowed; ticket records are seeded, so the item is present). -/
def release_ticket (eid tid : String) (db : DB) : DB :=
  updateTicketRec db eid tid (fun t =>
    { t with status := "available", reserved_by := none, reserved_until := none })

/-- `send_to_queue(queue_url, message)` (handler.py lines 522-536): sends
the message; a `ClientError` (modelled by `sqsFail`) is caught and only
printed, never re-raised. -/
def send_to_queue (sqsFail : Bool) (q : List QMsg) (m : QMsg) : List QMsg :=
  if sqsFail then q else q ++ [m]

/-- `get_event(event_id)` (handler.py lines 331-350): cache-then-store read
of an event; on a store hit the event is cached for 5 minutes. -/
def get_event (eid : String) (s : St) : Option EventRec × St :=
  match cacheGet s ("event:" ++ eid) with
  | some (CacheVal.ofEvent e) => (some e, s)
  | _ =>
      match s.db.events.find? (fun e => e.event_id == eid) with
      | some e => (some e, cacheSet s ("event:" ++ eid) (CacheVal.ofEvent e))
      | none => (none, s)

/-- Whether a booking status counts as active (`reserved`, `processing`,
`confirmed`) — the filter of the quota query (handler.py lines 429-436). -/
def isActiveStatus (st : String) : Bool :=
  st == "reserved" || st == "processing" || st == "confirmed"

/-- `get_user_active_bookings_count(user_id)` (handler.py lines 418-445):
returns the cached count when present (`is not None`, so a cached 0 is a
hit); on a miss, counts the user's bookings whose status is in
`{reserved, processing, confirmed}` and caches the count for 60 seconds. -/
def get_user_active_bookings_count (uid : String) (s : St) : Nat × St :=
  match cacheGet s ("user_bookings_count:" ++ uid) with
  | some (CacheVal.ofNat n) => (n, s)
  | _ =>
      let n := (s.db.bookings.filter
        (fun b => b.user_id == uid && isActiveStatus b.status)).length
      (n, cacheSet s ("user_bookings_count:" ++ uid) (CacheVal.ofNat n))

/-- `get_booking_by_id(booking_id)` (handler.py lines 448-466): cache-then-
store read; on a store hit with status `reserved` or `processing` the
booking is cached for 5 minutes, otherwise it is returned without caching. -/
def get_booking_by_id (bid : String) (s : St) : Option Booking × St :=
  match cacheGet s ("booking:" ++ bid) with
  | some (CacheVal.ofBooking b) => (some b, s)
  | _ =>
      match findBookingDb s.db bid with
      | some b =>
          if b.status == "reserved" || b.status == "processing" then
            (some b, cacheSet s ("booking:" ++ bid) (CacheVal.ofBooking b))
          else (some b, s)
      | none => (none, s)

/-- `update_booking_status(booking_id, status)` (handler.py lines 469-487):
an UNCONDITIONAL store update (no `ConditionExpression`) setting `status`
and `updated_at`, followed by a cache refresh: re-read the booking
(cache-then-store), overwrite its `status` / `updated_at` fields and cache
it for 5 minutes. -/
def update_booking_status (bid status : String) (now : Nat) (s : St) : St :=
  let newBookings := s.db.bookings.map (fun b =>
    if b.booking_id == bid then { b with status := status, updated_at := now } else b)
  let s1 : St := { s with db := { s.db with bookings := newBookings } }
  match get_booking_by_id bid s1 with
  | (some b, s2) =>
      cacheSet s2 ("booking:" ++ bid)
        (CacheVal.ofBooking { b with status := status, updated_at := now })
  | (none, s2) => s2

/-- `cancel_booking_internal(booking_id)` (handler.py lines 490-505): loads
the booking (no-op when absent), releases every ticket in it via
`release_ticket(booking['event_id'], ticket['ticket_id'])`, sets the
booking status to `cancelled`, and deletes the booking cache entry and the
owner's active-count cache entry. -/
def cancel_booking_internal (bid : String) (now : Nat) (s : St) : St :=
  match get_booking_by_id bid s with
  | (none, s1) => s1
  | (some b, s1) =>
      let db2 :=
        b.tickets.foldl (fun db t => release_ticket b.event_id t.ticket_id db) s1.db
      let s2 : St := { s1 with db := db2 }
      let s3 := update_booking_status bid "cancelled" now s2
      let s4 := cacheDelete s3 ("booking:" ++ bid)
      cacheDelete s4 ("user_bookings_count:" ++ b.user_id)

/-- One tier of the request body: `{'tier': ..., 'quantity': ...}`. -/
structure TierReq where
  tier : String
  quantity : Nat
deriving Repr, DecidableEq

/-- The parsed body of `POST /booking/reserve`. -/
structure ReserveReq where
  event_id : String
  tickets : List TierReq
deriving Repr, DecidableEq

/-- Modelled from the spec: `lib.validation.validate_booking_request` is not
under `src/`; per spec section 7 a validation error means malformed/missing
request fields and never mutates state.  Modelled as requiring a non-empty
event id and a non-empty ticket list. -/
def validate_booking_request (req : ReserveReq) : Except String Unit :=
  if req.event_id == "" then Except.error "event_id is required"
  else if req.tickets.isEmpty then Except.error "tickets are required"
  else Except.ok ()

/-- The snapshot dict appended at handler.py lines 145-150: it carries
`ticket_id`, `tier`, `price`, `seat_number` and no `event_id` key. -/
def snapshotOf (t : Ticket) : TicketSnapshot :=
  { ticket_id := t.ticket_id, tier := t.tier, price := t.price,
    seat_number := t.seat_number, event_id := none }

/-- Outcome of the reservation try-block when an exception flies: the error
and the `reserved_tickets` list accumulated so far (the outer
`except Exception` block needs it for its own rollback call). -/
structure LoopFail where
  err : Err
  reserved : List TicketSnapshot
deriving Repr, DecidableEq

/-- The inner per-ticket loop of `reserve_tickets` (handler.py lines
135-155) over the first `quantity` candidates: each ticket is conditionally
reserved; on success its snapshot is appended and its price added; on a
failed conditional write the source calls
`rollback_reservations(reserved_tickets, user_id)` and then raises
ticket-unavailable — if that rollback call itself raises (`KeyError`), its
exception flies instead. -/
def reserveTickLoop (eid uid : String) (now : Nat) :
    List Ticket → List TicketSnapshot → Nat → DB →
    DB × Except LoopFail (List TicketSnapshot × Nat)
  | [], acc, amt, db => (db, Except.ok (acc, amt))
  | t :: rest, acc, amt, db =>
      match reserve_ticket_in_db eid t.ticket_id uid now db with
      | (true, db1) =>
          reserveTickLoop eid uid now rest (acc ++ [snapshotOf t]) (amt + t.price) db1
      | (false, db1) =>
          match rollback_reservations acc uid db1 with
          | (db2, some e) => (db2, Except.error { err := e, reserved := acc })
          | (db2, none) =>
              (db2, Except.error
                { err := Err.ticketNotAvailableError
                    ("Ticket " ++ t.ticket_id ++ " no longer available"),
                  reserved := acc })

/-- The per-tier loop of `reserve_tickets` (handler.py lines 124-155):
query up to `2 x quantity` available candidates, fail with
ticket-unavailable when fewer than `quantity` remain, otherwise reserve the
first `quantity` of them. -/
def reserveTiersLoop (eid uid : String) (now : Nat) :
    List TierReq → List TicketSnapshot → Nat → DB →
    DB × Except LoopFail (List TicketSnapshot × Nat)
  | [], acc, amt, db => (db, Except.ok (acc, amt))
  | tr :: rest, acc, amt, db =>
      let avail := get_available_tickets db eid tr.tier tr.quantity
      if avail.length < tr.quantity then
        (db, Except.error
          { err := Err.ticketNotAvailableError
              ("Only " ++ toString avail.length ++ " " ++ tr.tier ++ " tickets available"),
            reserved := acc })
      else
        match reserveTickLoop eid uid now (avail.take tr.quantity) acc amt db with
        | (db1, Except.ok (acc1, amt1)) => reserveTiersLoop eid uid now rest acc1 amt1 db1
        | (db1, Except.error f) => (db1, Except.error f)

/-- `reserve_tickets(body, user_id)` (handler.py lines 93-200): validation,
quota check, event check, then — inside the event-scoped distributed lock —
the per-tier reservation loop; on any exception from the try-block the
`except` clause runs `rollback_reservations` on the accumulated snapshots
and re-raises (an exception from that rollback replaces the original); on
full success it persists the booking, caches it, enqueues a
`process_reservation` message and returns 201.  `new_booking_id` stands for
the generated uuid and `now` for `datetime.utcnow()`. -/
def reserve_tickets (sqsFail : Bool) (req : ReserveReq) (uid : String)
    (now : Nat) (new_booking_id : String) (s : St) (q : List QMsg) :
    St × List QMsg × Except Err Resp :=
  match validate_booking_request req with
  | Except.error m => (s, q, Except.error (Err.validationError m))
  | Except.ok _ =>
      match get_user_active_bookings_count uid s with
      | (active_bookings, s1) =>
          let total_requested := (req.tickets.map (fun r => r.quantity)).sum
          if MAX_TICKETS_PER_USER < active_bookings + total_requested then
            (s1, q, Except.error (Err.bookingError "Maximum 6 tickets per user"))
          else
            match get_event req.event_id s1 with
            | (none, s2) =>
                (s2, q, Except.error (Err.bookingError "Event not available for booking"))
            | (some ev, s2) =>
                if !(ev.status == "active") then
                  (s2, q, Except.error (Err.bookingError "Event not available for booking"))
                else
                  match reserveTiersLoop req.event_id uid now req.tickets [] 0 s2.db with
                  | (db1, Except.error f) =>
                      match rollback_reservations f.reserved uid db1 with
                      | (db2, some e2) => ({ s2 with db := db2 }, q, Except.error e2)
                      | (db2, none) => ({ s2 with db := db2 }, q, Except.error f.err)
                  | (db1, Except.ok (reserved_tickets, total_amount)) =>
                      let reserved_until := now + RESERVATION_TIMEOUT_MINUTES * 60
                      let booking : Booking :=
                        { booking_id := new_booking_id, user_id := uid,
                          event_id := req.event_id, tickets := reserved_tickets,
                          total_amount := total_amount, status := "reserved",
                          reserved_until := reserved_until, created_at := now,
                          updated_at := now, ttl := reserved_until + 3600 }
                      let s3 : St := { s2 with db := putBooking db1 booking }
                      let s4 := cacheSet s3 ("booking:" ++ new_booking_id)
                        (CacheVal.ofBooking booking)
                      let q1 := send_to_queue sqsFail q
                        { queue_url := BOOKING_QUEUE_URL, action := "process_reservation",
                          booking_id := new_booking_id, user_id := uid, amount := none }
                      (s4, q1, Except.ok (create_response 201
                        (RespBody.reserveOk new_booking_id "reserved" reserved_until
                          reserved_tickets total_amount)))

/-- The parsed body of `POST /booking/confirm` (`payment_method` is an
opaque payload forwarded to the queue and is not modelled). -/
structure ConfirmReq where
  booking_id : Option String
deriving Repr, DecidableEq

/-- `confirm_booking(body, user_id)` (handler.py lines 203-248): requires a
truthy `booking_id` (absent or empty is a validation error); loads the
booking; not-found, owner mismatch and non-`reserved` status all raise
`BookingError`; when `now > reserved_until` it cancels the booking
internally and raises expired-reservation; otherwise it sets the booking to
`processing`, enqueues a `process_payment` message and returns 200. -/
def confirm_booking (sqsFail : Bool) (body : ConfirmReq) (uid : String)
    (now : Nat) (s : St) (q : List QMsg) : St × List QMsg × Except Err Resp :=
  match body.booking_id with
  | none => (s, q, Except.error (Err.validationError "booking_id is required"))
  | some bid =>
      if bid == "" then (s, q, Except.error (Err.validationError "booking_id is required"))
      else
        match get_booking_by_id bid s with
        | (none, s1) => (s1, q, Except.error (Err.bookingError "Booking not found"))
        | (some booking, s1) =>
            if !(booking.user_id == uid) then
              (s1, q, Except.error (Err.bookingError "Unauthorized access to booking"))
            else if !(booking.status == "reserved") then
              (s1, q, Except.error (Err.bookingError
                ("Cannot confirm booking with status: " ++ booking.status)))
            else if booking.reserved_until < now then
              let s2 := cancel_booking_internal bid now s1
              (s2, q, Except.error (Err.bookingError "Reservation has expired"))
            else
              let s2 := update_booking_status bid "processing" now s1
              let q1 := send_to_queue sqsFail q
                { queue_url := PAYMENT_QUEUE_URL, action := "process_payment",
                  booking_id := bid, user_id := uid,
                  amount := some booking.total_amount }
              (s2, q1, Except.ok (create_response 200
                (RespBody.confirmOk bid "processing")))

/-- `get_booking(booking_id, user_id)` (handler.py lines 251-263): owner-
scoped fetch returning 404 for not-found, 403 for an owner mismatch, 200
with the booking otherwise. -/
def get_booking (bid uid : String) (s : St) : St × Resp :=
  match get_booking_by_id bid s with
  | (none, s1) => (s1, create_response 404 (RespBody.err "Booking not found"))
  | (some booking, s1) =>
      if !(booking.user_id == uid) then
        (s1, create_response 403 (RespBody.err "Unauthorized access"))
      else (s1, create_response 200 (RespBody.bookingItem booking))

/-- `cancel_booking(booking_id, user_id)` (handler.py lines 266-287): 404
for not-found, 403 for an owner mismatch, 409 when already
`cancelled`/`expired` or when `confirmed`; otherwise cancels internally and
returns 200. -/
def cancel_booking (bid uid : String) (now : Nat) (s : St) : St × Resp :=
  match get_booking_by_id bid s with
  | (none, s1) => (s1, create_response 404 (RespBody.err "Booking not found"))
  | (some booking, s1) =>
      if !(booking.user_id == uid) then
        (s1, create_response 403 (RespBody.err "Unauthorized access"))
      else if booking.status == "cancelled" || booking.status == "expired" then
        (s1, create_response 409 (RespBody.err "Booking already cancelled"))
      else if booking.status == "confirmed" then
        (s1, create_response 409 (RespBody.err "Cannot cancel confirmed booking"))
      else
        (cancel_booking_internal bid now s1,
         create_response 200 (RespBody.message "Booking cancelled successfully"))

/-- The exception mapping of `lambda_handler` (handler.py lines 82-90):
`ValidationError` to 400, `BookingError` and `TicketNotAvailableError` both
to 409, anything else (such as a `KeyError`) to a generic 500. -/
def handler_except (e : Err) : Resp :=
  match e with
  | Err.validationError m => create_response 400 (RespBody.err m)
  | Err.bookingError m => create_response 409 (RespBody.err m)
  | Err.ticketNotAvailableError m => create_response 409 (RespBody.err m)
  | Err.keyError _ => create_response 500 (RespBody.err "Internal server error")

/-- Wraps an operation result the way `lambda_handler` does: a raised error
becomes the response of `handler_except`, a returned response passes through. -/
def handle (r : Except Err Resp) : Resp :=
  match r with
  | Except.ok resp => resp
  | Except.error e => handler_except e

/-! ### Generic list lemmas for point updates of keyed tables -/

/-- `find?` after a point update at the searched key returns the updated
record, provided the update preserves the key predicate. -/
theorem find?_map_update_self {α : Type} (p : α → Bool) (f : α → α)
    (hf : ∀ a, p a = true → p (f a) = true) :
    ∀ l : List α,
      (l.map (fun a => if p a then f a else a)).find? p = (l.find? p).map f
  | [] => rfl
  | a :: l => by
      cases h : p a with
      | true => simp [List.find?_cons, h, hf a h]
      | false =>
          simp only [List.map_cons, List.find?_cons, h, Bool.false_eq_true,
            not_false_iff, ite_false]
          exact find?_map_update_self p f hf l

/-- `find?` for one key is unchanged by a point update that neither moves
records into the searched key nor changes records already at it. -/
theorem find?_map_update_other {α : Type} (p q : α → Bool) (f : α → α)
    (h1 : ∀ a, p (if q a then f a else a) = p a)
    (h2 : ∀ a, p a = true → (if q a then f a else a) = a) :
    ∀ l : List α,
      (l.map (fun a => if q a then f a else a)).find? p = l.find? p
  | [] => rfl
  | a :: l => by
      cases h : p a with
      | true =>
          simp only [List.map_cons, List.find?_cons, h1 a, h, h2 a h]
      | false =>
          simp only [List.map_cons, List.find?_cons, h1 a, h]
          exact find?_map_update_other p q f h1 h2 l

/-- `find?` commutes with `filter` when the filter keeps everything the
search could return. -/
theorem find?_filter_of_imp {α : Type} (p q : α → Bool)
    (h : ∀ a, p a = true → q a = true) :
    ∀ l : List α, (l.filter q).find? p = l.find? p
  | [] => rfl
  | a :: l => by
      cases hq : q a with
      | true =>
          simp only [List.filter_cons, hq, if_pos, List.find?_cons]
          cases hp : p a with
          | true => rfl
          | false => exact find?_filter_of_imp p q h l
      | false =>
          have hp : p a = false := by
            cases hp2 : p a with
            | false => rfl
            | true => exact absurd (h a hp2) (by simp [hq])
          simp only [List.filter_cons, hq, List.find?_cons, hp]
          simp only [Bool.false_eq_true, not_false_iff, ite_false]
          exact find?_filter_of_imp p q h l

/-- A search that already fails keeps failing on any sublist kept by `filter`. -/
theorem find?_filter_of_none {α : Type} (p q : α → Bool) :
    ∀ l : List α, l.find? p = none → (l.filter q).find? p = none := by
  intro l hl
  rw [List.find?_eq_none] at hl ⊢
  intro a ha
  exact hl a (List.mem_of_mem_filter ha)

/-! ### Cache primitive lemmas -/

/-- Reading back the key just written. -/
theorem cacheGet_set_self (s : St) (k : String) (v : CacheVal) :
    cacheGet (cacheSet s k v) k = some v := by
  simp [cacheGet, cacheSet, List.find?_cons]

/-- Writing one key leaves every other key unchanged. -/
theorem cacheGet_set_other (s : St) (k k' : String) (v : CacheVal)
    (h : ¬k' = k) :
    cacheGet (cacheSet s k v) k' = cacheGet s k' := by
  have hk : (k == k') = false := beq_eq_false_iff_ne.mpr (fun he => h he.symm)
  simp only [cacheGet, cacheSet, List.find?_cons, hk]
  rw [find?_filter_of_imp]
  intro a ha
  have h1 : a.1 = k' := by simpa using ha
  have h2 : (a.1 == k) = false := beq_eq_false_iff_ne.mpr (by rw [h1]; exact h)
  simp [h2]

/-- A deleted key reads as absent. -/
theorem cacheGet_delete_self (s : St) (k : String) :
    cacheGet (cacheDelete s k) k = none := by
  have hnone : ((s.cache.filter fun p => !(p.1 == k)).find? fun p => p.1 == k) = none := by
    rw [List.find?_eq_none]
    intro a ha
    have hkeep := List.of_mem_filter ha
    simp only [Bool.not_eq_true'] at hkeep
    simp [hkeep]
  simp [cacheGet, cacheDelete, hnone]

/-- Deletion never makes an absent key present. -/
theorem cacheGet_delete_of_none (s : St) (k k' : String)
    (h : cacheGet s k = none) :
    cacheGet (cacheDelete s k') k = none := by
  have h' : (s.cache.find? fun p => p.1 == k) = none := by
    cases hf : s.cache.find? fun p => p.1 == k with
    | none => rfl
    | some a => rw [cacheGet, hf] at h; simp at h
  have hfin := find?_filter_of_none (fun p : String × CacheVal => p.1 == k)
    (fun p => !(p.1 == k')) s.cache h'
  simp [cacheGet, cacheDelete, hfin]

/-- Cache writes do not touch the store. -/
theorem cacheSet_db (s : St) (k : String) (v : CacheVal) :
    (cacheSet s k v).db = s.db := rfl

/-- Cache deletions do not touch the store. -/
theorem cacheDelete_db (s : St) (k : String) :
    (cacheDelete s k).db = s.db := rfl

/-! ### Ticket table lemmas -/

/-- A point update at the searched ticket key returns the updated record,
when the update does not move the key. -/
theorem findTicket_update_self (db : DB) (eid tid : String) (f : Ticket → Ticket)
    (hf : ∀ t, (f t).event_id = t.event_id ∧ (f t).ticket_id = t.ticket_id) :
    findTicket (updateTicketRec db eid tid f) eid tid =
      (findTicket db eid tid).map f := by
  simp only [findTicket, updateTicketRec]
  refine find?_map_update_self _ f (fun a ha => ?_) db.tickets
  simp only [(hf a).1, (hf a).2]
  exact ha

/-- A point update of one ticket leaves every other ticket key unchanged,
when the update does not move the key. -/
theorem findTicket_update_other (db : DB) (eid tid eid' tid' : String)
    (f : Ticket → Ticket)
    (hf : ∀ t, (f t).event_id = t.event_id ∧ (f t).ticket_id = t.ticket_id)
    (hne : ¬(eid' = eid ∧ tid' = tid)) :
    findTicket (updateTicketRec db eid tid f) eid' tid' =
      findTicket db eid' tid' := by
  simp only [findTicket, updateTicketRec]
  refine find?_map_update_other _ _ f (fun a => ?_) (fun a ha => ?_) db.tickets
  · by_cases hq : (a.event_id == eid && a.ticket_id == tid) = true
    · simp only [hq, if_pos, (hf a).1, (hf a).2]
    · simp only [Bool.not_eq_true] at hq
      simp [hq]
  · have h1 : a.event_id = eid' ∧ a.ticket_id = tid' := by
      simpa [Bool.and_eq_true, beq_iff_eq] using ha
    have hq : (a.event_id == eid && a.ticket_id == tid) = false := by
      rw [h1.1, h1.2]
      by_cases he : eid' = eid
      · have ht : ¬tid' = tid := fun ht => hne ⟨he, ht⟩
        simp [he, beq_eq_false_iff_ne.mpr ht]
      · simp [beq_eq_false_iff_ne.mpr he]
    simp [hq]

/-- The field update written by `reserve_ticket_in_db` keeps the key. -/
theorem reserve_field_update_keeps_key (uid : String) (now : Nat) :
    ∀ t : Ticket,
      (({ t with status := "reserved", reserved_by := some uid, reserved_until := some (now + RESERVATION_TIMEOUT_MINUTES * 60) } : Ticket).event_id = t.event_id)
      ∧ (({ t with status := "reserved", reserved_by := some uid, reserved_until := some (now + RESERVATION_TIMEOUT_MINUTES * 60) } : Ticket).ticket_id = t.ticket_id) :=
  fun _ => ⟨rfl, rfl⟩

/-- The field update written by `release_ticket` (and by the conditional
rollback write) keeps the key. -/
theorem release_field_update_keeps_key :
    ∀ t : Ticket,
      (({ t with status := "available", reserved_by := none, reserved_until := none } : Ticket).event_id = t.event_id)
      ∧ (({ t with status := "available", reserved_by := none, reserved_until := none } : Ticket).ticket_id = t.ticket_id) :=
  fun _ => ⟨rfl, rfl⟩

/-- `release_ticket` at its own key: the record becomes `available` with the
reservation attributes removed. -/
theorem findTicket_release_self (db : DB) (eid tid : String) :
    findTicket (release_ticket eid tid db) eid tid =
      (findTicket db eid tid).map (fun t =>
        { t with status := "available", reserved_by := none, reserved_until := none }) := by
  simp only [release_ticket]
  exact findTicket_update_self db eid tid _ release_field_update_keeps_key

/-- `release_ticket` leaves every other ticket unchanged. -/
theorem findTicket_release_other (db : DB) (eid tid eid' tid' : String)
    (hne : ¬(eid' = eid ∧ tid' = tid)) :
    findTicket (release_ticket eid tid db) eid' tid' = findTicket db eid' tid' := by
  simp only [release_ticket]
  exact findTicket_update_other db eid tid eid' tid' _ release_field_update_keeps_key hne

/-- The released-ticket property: present implies available with no
reservation attributes. -/
def ReleasedAt (db : DB) (eid tid : String) : Prop :=
  ∀ tk, findTicket db eid tid = some tk →
    tk.status = "available" ∧ tk.reserved_by = none ∧ tk.reserved_until = none

/-- A single `release_ticket` (of any key) preserves `ReleasedAt`. -/
theorem releasedAt_release (db : DB) (eid tid eid' tid' : String)
    (h : ReleasedAt db eid tid) :
    ReleasedAt (release_ticket eid' tid' db) eid tid := by
  intro tk htk
  by_cases hk : eid = eid' ∧ tid = tid'
  · rw [hk.1, hk.2, findTicket_release_self] at htk
    cases hfind : findTicket db eid' tid' with
    | none => rw [hfind] at htk; simp at htk
    | some t =>
        rw [hfind] at htk
        simp only [Option.map_some'] at htk
        cases htk
        exact ⟨rfl, rfl, rfl⟩
  · rw [findTicket_release_other db eid' tid' eid tid hk] at htk
    exact h tk htk

/-- `release_ticket` establishes `ReleasedAt` at its own key. -/
theorem releasedAt_release_self (db : DB) (eid tid : String) :
    ReleasedAt (release_ticket eid tid db) eid tid := by
  intro tk htk
  rw [findTicket_release_self] at htk
  cases hfind : findTicket db eid tid with
  | none => rw [hfind] at htk; simp at htk
  | some t =>
      rw [hfind] at htk
      simp only [Option.map_some'] at htk
      cases htk
      exact ⟨rfl, rfl, rfl⟩

/-- After folding `release_ticket` over a list of snapshots, every ticket of
the list is released (present implies available). -/
theorem releasedAt_foldl (eid : String) :
    ∀ (l : List TicketSnapshot) (db : DB),
      (∀ t ∈ l, ReleasedAt (l.foldl (fun db t => release_ticket eid t.ticket_id db) db)
        eid t.ticket_id)
      ∧ (∀ tid, ReleasedAt db eid tid →
          ReleasedAt (l.foldl (fun db t => release_ticket eid t.ticket_id db) db) eid tid)
  | [], db => ⟨fun t ht => absurd ht (List.not_mem_nil t), fun _ h => h⟩
  | x :: l, db => by
      constructor
      · intro t ht
        rcases List.mem_cons.mp ht with h | h
        · subst h
          exact (releasedAt_foldl eid l (release_ticket eid t.ticket_id db)).2
            t.ticket_id (releasedAt_release_self db eid t.ticket_id)
        · exact (releasedAt_foldl eid l (release_ticket eid x.ticket_id db)).1 t h
      · intro tid h
        exact (releasedAt_foldl eid l (release_ticket eid x.ticket_id db)).2 tid
          (releasedAt_release db eid tid eid x.ticket_id h)

/-! ### Semantics of the conditional reservation write -/

/-- The conditional write succeeds exactly when the stored status is
`available`. -/
theorem reserve_ticket_in_db_succeeds_iff (eid tid uid : String) (now : Nat)
    (db : DB) :
    (reserve_ticket_in_db eid tid uid now db).1 = true ↔
      ∃ t, findTicket db eid tid = some t ∧ t.status = "available" := by
  unfold reserve_ticket_in_db
  cases hfind : findTicket db eid tid with
  | none => simp [hfind]
  | some t =>
      by_cases hst : t.status = "available"
      · simp [hfind, hst]
      · have hb : (t.status == "available") = false := beq_eq_false_iff_ne.mpr hst
        simp [hfind, hb, hst]

/-- On success the stored record becomes `reserved` for the given user until
`now + 5 minutes`. -/
theorem reserve_ticket_in_db_sets_fields (eid tid uid : String) (now : Nat)
    (db : DB) (t : Ticket) (hfind : findTicket db eid tid = some t)
    (hst : t.status = "available") :
    findTicket (reserve_ticket_in_db eid tid uid now db).2 eid tid =
      some { t with status := "reserved", reserved_by := some uid, reserved_until := some (now + RESERVATION_TIMEOUT_MINUTES * 60) } := by
  unfold reserve_ticket_in_db
  rw [hfind]
  have hb : (t.status == "available") = true := beq_iff_eq.mpr hst
  simp only [hb, if_pos]
  rw [findTicket_update_self db eid tid _ (reserve_field_update_keeps_key uid now),
    hfind, Option.map_some']

/-- A failed conditional write leaves the store untouched. -/
theorem reserve_ticket_in_db_fail_id (eid tid uid : String) (now : Nat)
    (db : DB) (h : (reserve_ticket_in_db eid tid uid now db).1 = false) :
    (reserve_ticket_in_db eid tid uid now db).2 = db := by
  unfold reserve_ticket_in_db at h ⊢
  cases hfind : findTicket db eid tid with
  | none => rfl
  | some t =>
      rw [hfind] at h
      by_cases hst : (t.status == "available") = true
      · simp [hst] at h
      · simp only [Bool.not_eq_true] at hst
        simp [hst]

/-! ### State lemmas for the cache-through reads -/

/-- `get_event` never writes the store. -/
theorem get_event_db (eid : String) (s : St) :
    ((get_event eid s).2).db = s.db := by
  unfold get_event
  split
  · rfl
  · split <;> rfl

/-- `get_user_active_bookings_count` never writes the store. -/
theorem get_user_active_bookings_count_db (uid : String) (s : St) :
    ((get_user_active_bookings_count uid s).2).db = s.db := by
  unfold get_user_active_bookings_count
  split <;> rfl

/-- `get_booking_by_id` never writes the store. -/
theorem get_booking_by_id_db (bid : String) (s : St) :
    ((get_booking_by_id bid s).2).db = s.db := by
  unfold get_booking_by_id
  split
  · rfl
  · split
    · split <;> rfl
    · rfl

/-- A successful `get_booking_by_id` is stable: re-reading from the state it
returns yields the same booking and does not change the state again. -/
theorem get_booking_by_id_idem (bid : String) (s s1 : St) (b : Booking)
    (h : get_booking_by_id bid s = (some b, s1)) :
    get_booking_by_id bid s1 = (some b, s1) := by
  unfold get_booking_by_id at h
  split at h
  · rename_i b0 hc
    cases h
    unfold get_booking_by_id
    rw [hc]
  · rename_i hc
    split at h
    · rename_i b0 hfind
      split at h
      · rename_i hact
        cases h
        unfold get_booking_by_id
        rw [cacheGet_set_self]
      · rename_i hact
        cases h
        unfold get_booking_by_id
        split
        · rename_i b1 hc1
          rw [hc1] at hc
          exact absurd rfl (hc b1)
        · rw [hfind]
          simp [hact]
    · cases h

/-- After a successful read of a `reserved` or `processing` booking, the
cache holds exactly that booking. -/
theorem get_booking_by_id_cache_active (bid : String) (s s1 : St) (b : Booking)
    (h : get_booking_by_id bid s = (some b, s1))
    (hact : (b.status == "reserved" || b.status == "processing") = true) :
    cacheGet s1 ("booking:" ++ bid) = some (CacheVal.ofBooking b) := by
  unfold get_booking_by_id at h
  split at h
  · rename_i b0 hc
    cases h
    exact hc
  · rename_i hc
    split at h
    · rename_i b0 hfind
      split at h
      · cases h
        exact cacheGet_set_self _ _ _
      · rename_i hact2
        cases h
        exact absurd hact hact2
    · cases h

/-! ### Lemmas about booking status updates and internal cancellation -/

/-- The store after `update_booking_status`: only the bookings table
changes, by the point update of the addressed booking. -/
theorem update_booking_status_db (bid st : String) (now : Nat) (s : St) :
    (update_booking_status bid st now s).db =
      { s.db with bookings := s.db.bookings.map (fun b => if b.booking_id == bid then { b with status := st, updated_at := now } else b) } := by
  unfold update_booking_status
  dsimp only
  split
  · rename_i b s2 heq
    rw [cacheSet_db]
    have := get_booking_by_id_db bid
      ({ s with db := { s.db with bookings := s.db.bookings.map (fun b => if b.booking_id == bid then { b with status := st, updated_at := now } else b) } })
    rw [heq] at this
    exact this
  · rename_i s2 heq
    have := get_booking_by_id_db bid
      ({ s with db := { s.db with bookings := s.db.bookings.map (fun b => if b.booking_id == bid then { b with status := st, updated_at := now } else b) } })
    rw [heq] at this
    exact this

/-- Reading the addressed booking after `update_booking_status`. -/
theorem findBookingDb_update_booking_status (bid st : String) (now : Nat)
    (s : St) :
    findBookingDb (update_booking_status bid st now s).db bid =
      (findBookingDb s.db bid).map (fun b => { b with status := st, updated_at := now }) := by
  rw [update_booking_status_db]
  unfold findBookingDb
  dsimp only
  exact find?_map_update_self (fun b : Booking => b.booking_id == bid)
    (fun b => { b with status := st, updated_at := now }) (fun a ha => ha)
    s.db.bookings

/-- `update_booking_status` does not touch the tickets table. -/
theorem update_booking_status_tickets (bid st : String) (now : Nat) (s : St) :
    (update_booking_status bid st now s).db.tickets = s.db.tickets := by
  rw [update_booking_status_db]

/-- Folding `release_ticket` only changes the tickets table. -/
theorem foldl_release_bookings (eid : String) :
    ∀ (l : List TicketSnapshot) (db : DB),
      (l.foldl (fun db t => release_ticket eid t.ticket_id db) db).bookings =
        db.bookings
  | [], _ => rfl
  | x :: l, db => foldl_release_bookings eid l (release_ticket eid x.ticket_id db)

/-- `findTicket` only reads the tickets table. -/
theorem findTicket_eq_of_tickets (db db' : DB) (h : db'.tickets = db.tickets)
    (eid tid : String) : findTicket db' eid tid = findTicket db eid tid := by
  unfold findTicket
  rw [h]

/-- `ReleasedAt` only depends on the tickets table. -/
theorem releasedAt_of_tickets (db db' : DB) (h : db'.tickets = db.tickets)
    (eid tid : String) (hr : ReleasedAt db eid tid) : ReleasedAt db' eid tid := by
  intro tk htk
  rw [findTicket_eq_of_tickets db db' h] at htk
  exact hr tk htk

/-- What `cancel_booking_internal` does, given what the booking read
returns: every ticket of the booking is released (present implies
`available` with no reservation attributes), the booking cache entry and
the owner's active-count cache entry are gone, and the stored booking (when
present) is set to `cancelled`. -/
theorem cancel_booking_internal_spec (bid : String) (now : Nat) (s s1 : St)
    (b : Booking) (h : get_booking_by_id bid s = (some b, s1)) :
    (∀ t ∈ b.tickets,
        ReleasedAt (cancel_booking_internal bid now s).db b.event_id t.ticket_id)
    ∧ cacheGet (cancel_booking_internal bid now s) ("booking:" ++ bid) = none
    ∧ cacheGet (cancel_booking_internal bid now s)
        ("user_bookings_count:" ++ b.user_id) = none
    ∧ findBookingDb (cancel_booking_internal bid now s).db bid =
        (findBookingDb s.db bid).map
          (fun b0 => { b0 with status := "cancelled", updated_at := now }) := by
  have hs1db : s1.db = s.db := by
    have := get_booking_by_id_db bid s
    rw [h] at this
    exact this
  unfold cancel_booking_internal
  rw [h]
  refine ⟨?_, ?_, ?_, ?_⟩
  · intro t ht
    refine releasedAt_of_tickets _ _ ?_ _ _
      ((releasedAt_foldl b.event_id b.tickets s1.db).1 t ht)
    rw [cacheDelete_db, cacheDelete_db, update_booking_status_tickets]
  · refine cacheGet_delete_of_none _ _ _ ?_
    exact cacheGet_delete_self _ _
  · exact cacheGet_delete_self _ _
  · rw [cacheDelete_db, cacheDelete_db]
    rw [findBookingDb_update_booking_status]
    unfold findBookingDb
    rw [foldl_release_bookings, hs1db]

/-! ### Concrete fixtures used by witnesses and counterexamples -/

/-- An available ticket of event `e1`. -/
def mkAvailableTicket (tid tier : String) (price : Nat) : Ticket :=
  { event_id := "e1", ticket_id := tid, tier := tier, price := price,
    seat_number := "A1", status := "available", reserved_by := none,
    reserved_until := none }

/-- A store with an active event, one `vip` and two `standard` available
tickets. -/
def dbW : DB :=
  { events := [{ event_id := "e1", status := "active" }],
    tickets := [mkAvailableTicket "t1" "vip" 100,
      mkAvailableTicket "t2" "standard" 50, mkAvailableTicket "t3" "standard" 50],
    bookings := [] }

/-- The fixture state with an empty cache. -/
def sW : St := { db := dbW, cache := [] }

/-- A booking of user `u1` holding ticket `t1`, reserved until 300. -/
def bW : Booking :=
  { booking_id := "b1", user_id := "u1", event_id := "e1",
    tickets := [{ ticket_id := "t1", tier := "vip", price := 100, seat_number := "A1", event_id := none }],
    total_amount := 100, status := "reserved", reserved_until := 300,
    created_at := 0, updated_at := 0, ttl := 3900 }

/-- Ticket `t1` reserved by `u1`. -/
def tReserved : Ticket :=
  { event_id := "e1", ticket_id := "t1", tier := "vip", price := 100,
    seat_number := "A1", status := "reserved", reserved_by := some "u1",
    reserved_until := some 300 }

/-- The store holding the reserved booking `b1` and its reserved ticket. -/
def dbB : DB :=
  { events := [{ event_id := "e1", status := "active" }],
    tickets := [tReserved], bookings := [bW] }

/-- A state holding the reserved booking `b1` and its reserved ticket. -/
def sB : St := { db := dbB, cache := [] }

/-! ### C1 -/

/-- C1: the `available → reserved` transition happens only through the
conditional write of `reserve_ticket_in_db`: the write succeeds exactly
when the currently stored status is `available`, then sets
`status = reserved`, `reserved_by = userId` and
`reserved_until = now + 5 minutes`; a failed write changes nothing; and of
two attempts racing on the same ticket at most one succeeds, so the ticket
is never reserved for two users at once. -/
theorem c1_reserve_conditional_write_no_double (db : DB)
    (eid tid u1 u2 : String) (n1 n2 : Nat) :
    (((reserve_ticket_in_db eid tid u1 n1 db).1 = true) ↔
        (∃ t, findTicket db eid tid = some t ∧ t.status = "available"))
    ∧ (∀ t, findTicket db eid tid = some t → t.status = "available" →
        findTicket (reserve_ticket_in_db eid tid u1 n1 db).2 eid tid =
          some { t with status := "reserved", reserved_by := some u1, reserved_until := some (n1 + RESERVATION_TIMEOUT_MINUTES * 60) })
    ∧ ((reserve_ticket_in_db eid tid u1 n1 db).1 = false →
        (reserve_ticket_in_db eid tid u1 n1 db).2 = db)
    ∧ ¬((reserve_ticket_in_db eid tid u1 n1 db).1 = true ∧
        (reserve_ticket_in_db eid tid u2 n2
          (reserve_ticket_in_db eid tid u1 n1 db).2).1 = true) := by
  refine ⟨reserve_ticket_in_db_succeeds_iff eid tid u1 n1 db,
    fun t hf hs => reserve_ticket_in_db_sets_fields eid tid u1 n1 db t hf hs,
    reserve_ticket_in_db_fail_id eid tid u1 n1 db, ?_⟩
  rintro ⟨h1, h2⟩
  obtain ⟨t, hf, hs⟩ := (reserve_ticket_in_db_succeeds_iff eid tid u1 n1 db).mp h1
  have hset := reserve_ticket_in_db_sets_fields eid tid u1 n1 db t hf hs
  obtain ⟨t', hf', hs'⟩ :=
    (reserve_ticket_in_db_succeeds_iff eid tid u2 n2
      (reserve_ticket_in_db eid tid u1 n1 db).2).mp h2
  rw [hset] at hf'
  cases hf'
  simp at hs'

/-! ### C4 -/

/-- C4: when the active-booking count returned by the quota enforcer plus
the requested total exceeds the per-user maximum of 6, `reserve_tickets`
fails with the quota `BookingError` before any ticket or booking mutation:
the store is unchanged (only the count cache may have been populated by the
read itself) and nothing is enqueued. -/
theorem c4_quota_rejected_before_mutation (sqsFail : Bool) (req : ReserveReq)
    (uid : String) (now : Nat) (nbid : String) (s : St) (q : List QMsg)
    (hv : validate_booking_request req = Except.ok ())
    (hq : MAX_TICKETS_PER_USER <
        (get_user_active_bookings_count uid s).1 +
          (req.tickets.map (fun r => r.quantity)).sum) :
    reserve_tickets sqsFail req uid now nbid s q =
      ((get_user_active_bookings_count uid s).2, q,
        Except.error (Err.bookingError "Maximum 6 tickets per user"))
    ∧ (reserve_tickets sqsFail req uid now nbid s q).1.db = s.db := by
  have hdb := get_user_active_bookings_count_db uid s
  simp only [reserve_tickets, hv]
  rcases hc : get_user_active_bookings_count uid s with ⟨active, s1⟩
  rw [hc] at hq hdb
  simp only [hc]
  rw [if_pos hq]
  exact ⟨rfl, hdb⟩

/-- A booking counting against the quota of user `u1`. -/
def mkActiveBooking (i : String) : Booking :=
  { booking_id := i, user_id := "u1", event_id := "e1", tickets := [],
    total_amount := 0, status := "reserved", reserved_until := 300,
    created_at := 0, updated_at := 0, ttl := 3900 }

/-- A store in which user `u1` already holds 5 active bookings. -/
def dbQuota : DB :=
  { events := [{ event_id := "e1", status := "active" }],
    tickets := [mkAvailableTicket "t2" "standard" 50, mkAvailableTicket "t3" "standard" 50],
    bookings := [mkActiveBooking "b1", mkActiveBooking "b2", mkActiveBooking "b3",
      mkActiveBooking "b4", mkActiveBooking "b5"] }

/-- The quota fixture state. -/
def sQuota : St := { db := dbQuota, cache := [] }

/-- The quota fixture request: 2 more tickets for a user holding 5. -/
def reqQuota : ReserveReq := { event_id := "e1", tickets := [⟨"standard", 2⟩] }

/-- C4 witness: a user with 5 active bookings requesting 2 more (cap 6) is
rejected with the quota error and the store is unchanged. -/
theorem c4_quota_witness :
    reserve_tickets false reqQuota "u1" 0 "b9" sQuota [] =
      ((get_user_active_bookings_count "u1" sQuota).2, [],
        Except.error (Err.bookingError "Maximum 6 tickets per user"))
    ∧ (reserve_tickets false reqQuota "u1" 0 "b9" sQuota []).1.db = sQuota.db :=
  c4_quota_rejected_before_mutation false reqQuota "u1" 0 "b9" sQuota []
    rfl (by decide)

/-! ### C5 -/

/-- C5: confirming a `reserved` booking whose `reserved_until` lies in the
past cancels it internally — every ticket of the booking reads back
`available` with no `reserved_by`, the stored booking becomes `cancelled` —
and fails with the expired-reservation error; no payment message is
enqueued and no transition to `processing` happens. -/
theorem c5_confirm_expired_cancels_and_fails (sqsFail : Bool)
    (bid uid : String) (now : Nat) (s s1 : St) (q : List QMsg) (b : Booking)
    (hbid : ¬bid = "")
    (h : get_booking_by_id bid s = (some b, s1))
    (hown : b.user_id = uid)
    (hst : b.status = "reserved")
    (hexp : b.reserved_until < now) :
    (confirm_booking sqsFail ⟨some bid⟩ uid now s q).2.2 =
        Except.error (Err.bookingError "Reservation has expired")
    ∧ (confirm_booking sqsFail ⟨some bid⟩ uid now s q).2.1 = q
    ∧ (∀ t ∈ b.tickets, ∀ tk,
        findTicket (confirm_booking sqsFail ⟨some bid⟩ uid now s q).1.db
            b.event_id t.ticket_id = some tk →
          tk.status = "available" ∧ tk.reserved_by = none)
    ∧ (∀ bb, findBookingDb (confirm_booking sqsFail ⟨some bid⟩ uid now s q).1.db
          bid = some bb → bb.status = "cancelled") := by
  have hb0 : (bid == "") = false := beq_eq_false_iff_ne.mpr hbid
  have ho : (b.user_id == uid) = true := beq_iff_eq.mpr hown
  have hs : (b.status == "reserved") = true := beq_iff_eq.mpr hst
  have hres : confirm_booking sqsFail ⟨some bid⟩ uid now s q =
      (cancel_booking_internal bid now s1, q,
        Except.error (Err.bookingError "Reservation has expired")) := by
    simp only [confirm_booking, hb0, h, ho, hs]
    simp only [Bool.not_true, Bool.false_eq_true, if_false, ite_false]
    rw [if_pos hexp]
  have hidem := get_booking_by_id_idem bid s s1 b h
  have spec := cancel_booking_internal_spec bid now s1 s1 b hidem
  refine ⟨by rw [hres], by rw [hres], ?_, ?_⟩
  · intro t ht tk htk
    rw [hres] at htk
    exact ⟨(spec.1 t ht tk htk).1, (spec.1 t ht tk htk).2.1⟩
  · intro bb hbb
    rw [hres] at hbb
    have hmap := spec.2.2.2
    rw [hmap] at hbb
    cases hdb : findBookingDb s1.db bid with
    | none => rw [hdb] at hbb; simp at hbb
    | some b0 =>
        rw [hdb] at hbb
        simp only [Option.map_some'] at hbb
        cases hbb
        rfl

/-- The state after reading booking `b1` from `sB` (the read caches it). -/
def sBcached : St := cacheSet sB "booking:b1" (CacheVal.ofBooking bW)

/-- C5 witness: booking `b1` (window ending at 300) confirmed at time 400
fails with expired-reservation, its ticket reads back `available`, the
stored booking is `cancelled`, and no payment message was enqueued. -/
theorem c5_confirm_expired_witness :
    (confirm_booking false ⟨some "b1"⟩ "u1" 400 sB []).2.2 =
        Except.error (Err.bookingError "Reservation has expired")
    ∧ (confirm_booking false ⟨some "b1"⟩ "u1" 400 sB []).2.1 = []
    ∧ (∀ t ∈ bW.tickets, ∀ tk,
        findTicket (confirm_booking false ⟨some "b1"⟩ "u1" 400 sB []).1.db
            bW.event_id t.ticket_id = some tk →
          tk.status = "available" ∧ tk.reserved_by = none)
    ∧ (∀ bb, findBookingDb (confirm_booking false ⟨some "b1"⟩ "u1" 400 sB []).1.db
          "b1" = some bb → bb.status = "cancelled") :=
  c5_confirm_expired_cancels_and_fails false "b1" "u1" 400 sB sBcached [] bW
    (by decide) (by decide) (by decide) (by decide) (by decide)

/-! ### C6 -/

/-- C6: cancelling a booking already `cancelled`/`expired`, or a
`confirmed` one, fails with a 409 conflict and mutates nothing; otherwise
every ticket of the booking is released back to `available` by the
unconditional write (no `reserved_by` match required — no hypothesis about
the stored holder appears below), the stored booking becomes `cancelled`,
and both the booking cache entry and the owner's active-count cache entry
are gone. -/
theorem c6_cancel_guards_and_release (bid uid : String) (now : Nat)
    (s s1 : St) (b : Booking)
    (h : get_booking_by_id bid s = (some b, s1))
    (hown : b.user_id = uid) :
    ((b.status = "cancelled" ∨ b.status = "expired") →
        cancel_booking bid uid now s =
          (s1, create_response 409 (RespBody.err "Booking already cancelled"))
        ∧ s1.db = s.db)
    ∧ (b.status = "confirmed" →
        cancel_booking bid uid now s =
          (s1, create_response 409 (RespBody.err "Cannot cancel confirmed booking"))
        ∧ s1.db = s.db)
    ∧ ((¬b.status = "cancelled") → (¬b.status = "expired") →
        (¬b.status = "confirmed") →
        (cancel_booking bid uid now s).2 =
          create_response 200 (RespBody.message "Booking cancelled successfully")
        ∧ (∀ t ∈ b.tickets, ∀ tk,
            findTicket (cancel_booking bid uid now s).1.db b.event_id t.ticket_id
              = some tk → tk.status = "available" ∧ tk.reserved_by = none)
        ∧ cacheGet (cancel_booking bid uid now s).1 ("booking:" ++ bid) = none
        ∧ cacheGet (cancel_booking bid uid now s).1
            ("user_bookings_count:" ++ uid) = none
        ∧ (∀ bb, findBookingDb (cancel_booking bid uid now s).1.db bid = some bb →
            bb.status = "cancelled")) := by
  have ho : (b.user_id == uid) = true := beq_iff_eq.mpr hown
  have hdb1 : s1.db = s.db := by
    have := get_booking_by_id_db bid s
    rw [h] at this
    exact this
  refine ⟨?_, ?_, ?_⟩
  · intro hguard
    have hg : (b.status == "cancelled" || b.status == "expired") = true := by
      rcases hguard with hg | hg <;> simp [hg]
    simp only [cancel_booking, h, ho, hg]
    simp only [Bool.not_true, Bool.false_eq_true, if_false, if_true, ite_false, ite_true]
    exact ⟨trivial, hdb1⟩
  · intro hguard
    have hg : (b.status == "cancelled" || b.status == "expired") = false := by
      rw [hguard]; decide
    have hc : (b.status == "confirmed") = true := beq_iff_eq.mpr hguard
    simp only [cancel_booking, h, ho, hg, hc]
    simp only [Bool.not_true, Bool.false_eq_true, if_false, if_true, ite_false, ite_true]
    exact ⟨trivial, hdb1⟩
  · intro h1 h2 h3
    have hg : (b.status == "cancelled" || b.status == "expired") = false := by
      simp [beq_eq_false_iff_ne.mpr h1, beq_eq_false_iff_ne.mpr h2]
    have hc : (b.status == "confirmed") = false := beq_eq_false_iff_ne.mpr h3
    have hres : cancel_booking bid uid now s =
        (cancel_booking_internal bid now s1,
          create_response 200 (RespBody.message "Booking cancelled successfully")) := by
      simp only [cancel_booking, h, ho, hg, hc]
      simp only [Bool.not_true, Bool.false_eq_true, if_false, ite_false]
    have hidem := get_booking_by_id_idem bid s s1 b h
    have spec := cancel_booking_internal_spec bid now s1 s1 b hidem
    refine ⟨by rw [hres], ?_, ?_, ?_, ?_⟩
    · intro t ht tk htk
      rw [hres] at htk
      exact ⟨(spec.1 t ht tk htk).1, (spec.1 t ht tk htk).2.1⟩
    · rw [hres]
      exact spec.2.1
    · rw [hres]
      rw [← hown]
      exact spec.2.2.1
    · intro bb hbb
      rw [hres] at hbb
      rw [spec.2.2.2] at hbb
      cases hdb : findBookingDb s1.db bid with
      | none => rw [hdb] at hbb; simp at hbb
      | some b0 =>
          rw [hdb] at hbb
          simp only [Option.map_some'] at hbb
          cases hbb
          rfl

/-- A cancelled booking for the guard witness. -/
def bCancelled : Booking :=
  { booking_id := "b2", user_id := "u1", event_id := "e1",
    tickets := [{ ticket_id := "t1", tier := "vip", price := 100, seat_number := "A1", event_id := none }],
    total_amount := 100, status := "cancelled", reserved_until := 300,
    created_at := 0, updated_at := 0, ttl := 3900 }

/-- The store with the cancelled booking `b2` and the reserved ticket. -/
def dbGuard : DB :=
  { events := [{ event_id := "e1", status := "active" }],
    tickets := [tReserved], bookings := [bCancelled] }

/-- The guard fixture state. -/
def sGuard : St := { db := dbGuard, cache := [] }

/-- C6 witness: cancelling the already-cancelled booking `b2` answers 409
and leaves the store untouched. -/
theorem c6_cancel_guards_witness :
    cancel_booking "b2" "u1" 50 sGuard =
      (sGuard, create_response 409 (RespBody.err "Booking already cancelled"))
    ∧ sGuard.db = sGuard.db :=
  (c6_cancel_guards_and_release "b2" "u1" 50 sGuard sGuard bCancelled
    (by decide) (by decide)).1 (Or.inl (by decide))

/-! ### C9 -/

/-- C9: immediately after `cancel_booking_internal`, the booking cache
entry is gone, so `get_booking_by_id` takes the store path and returns the
stored record with status `cancelled` without writing the state again — the
cache-hit path cannot return a stale pre-cancel `reserved` value because
there is no cache entry, and both paths agree on the store record. -/
theorem c9_read_after_cancel_consistent (bid : String) (now : Nat)
    (s s1 : St) (b b0 : Booking)
    (h : get_booking_by_id bid s = (some b, s1))
    (hdb : findBookingDb s.db bid = some b0) :
    cacheGet (cancel_booking_internal bid now s) ("booking:" ++ bid) = none
    ∧ get_booking_by_id bid (cancel_booking_internal bid now s) =
        (some { b0 with status := "cancelled", updated_at := now },
          cancel_booking_internal bid now s)
    ∧ ({ b0 with status := "cancelled", updated_at := now } : Booking).status =
        "cancelled" := by
  have spec := cancel_booking_internal_spec bid now s s1 b h
  have hfind : findBookingDb (cancel_booking_internal bid now s).db bid =
      some { b0 with status := "cancelled", updated_at := now } := by
    rw [spec.2.2.2, hdb, Option.map_some']
  refine ⟨spec.2.1, ?_, rfl⟩
  unfold get_booking_by_id
  split
  · rename_i bb hc
    rw [spec.2.1] at hc
    cases hc
  · rw [hfind]
    simp

/-- C9 witness: after cancelling booking `b1` of `sB` (read first, so the
cache had been populated pre-cancel), the cache entry is gone and the read
returns the `cancelled` store record. -/
theorem c9_read_after_cancel_witness :
    cacheGet (cancel_booking_internal "b1" 400 sB) ("booking:b1") = none
    ∧ get_booking_by_id "b1" (cancel_booking_internal "b1" 400 sB) =
        (some { bW with status := "cancelled", updated_at := 400 },
          cancel_booking_internal "b1" 400 sB)
    ∧ ({ bW with status := "cancelled", updated_at := 400 } : Booking).status =
        "cancelled" :=
  c9_read_after_cancel_consistent "b1" 400 sB sBcached bW bW
    (by decide) (by decide)

/-! ### C7 -/

/-- A ticket already sold, reserved-stamped for user `u2`. -/
def tSold : Ticket :=
  { event_id := "e1", ticket_id := "t1", tier := "vip", price := 100,
    seat_number := "A1", status := "sold", reserved_by := some "u2",
    reserved_until := some 300 }

/-- A store holding only the sold ticket. -/
def dbSold : DB := { events := [], tickets := [tSold], bookings := [] }

/-- C7 counterexample: the writes of confirmation/cancellation are NOT
conditional on current stored state — `release_ticket` flips a `sold`
ticket stamped for another user to `available` (the claim's predicate
"ticket still reserved" is false, yet the write takes effect), and
`update_booking_status` overwrites a `cancelled` booking to `processing`
(the predicate "booking still in the expected status" is false, yet the
write takes effect). -/
theorem c7_counterexample_unconditional_write :
    findTicket (release_ticket "e1" "t1" dbSold) "e1" "t1" =
      some { tSold with status := "available", reserved_by := none, reserved_until := none }
    ∧ tSold.status = "sold"
    ∧ tSold.reserved_by = some "u2"
    ∧ (findBookingDb (update_booking_status "b2" "processing" 10 sGuard).db "b2").map
        (fun b => b.status) = some "processing"
    ∧ bCancelled.status = "cancelled" := by decide

/-- C7 amended: confirmation and cancellation guard their transitions by
pre-checks on the loaded booking, but the writes themselves are
unconditional — `release_ticket` sets any present ticket to `available`
regardless of its stored status or holder, and `update_booking_status`
overwrites the status of any present booking regardless of its stored
status; only `reserve_ticket_in_db` and the reservation-time rollback use
conditional writes. -/
theorem c7_amended_unconditional_writes (db : DB) (eid tid : String)
    (s : St) (bid st : String) (now : Nat) :
    (∀ t, findTicket db eid tid = some t →
        findTicket (release_ticket eid tid db) eid tid =
          some { t with status := "available", reserved_by := none, reserved_until := none })
    ∧ (∀ b0, findBookingDb s.db bid = some b0 →
        findBookingDb (update_booking_status bid st now s).db bid =
          some { b0 with status := st, updated_at := now }) := by
  constructor
  · intro t ht
    rw [findTicket_release_self, ht, Option.map_some']
  · intro b0 hb0
    rw [findBookingDb_update_booking_status, hb0, Option.map_some']

/-! ### C8 -/

/-- C8 counterexample: in `confirm_booking`, not-found and unauthorized
both surface as HTTP 409 (`BookingError`), not as the 404-vs-403 pair the
claim requires of every operation that can report both. -/
theorem c8_counterexample_confirm_collapses_404_403 :
    (handle (confirm_booking false ⟨some "nope"⟩ "u1" 0 sB []).2.2).statusCode = 409
    ∧ (handle (confirm_booking false ⟨some "b1"⟩ "u2" 0 sB []).2.2).statusCode = 409
    ∧ ¬(handle (confirm_booking false ⟨some "nope"⟩ "u1" 0 sB []).2.2).statusCode = 404
    ∧ ¬(handle (confirm_booking false ⟨some "b1"⟩ "u2" 0 sB []).2.2).statusCode = 403 := by
  decide

/-- C8 amended: `get_booking` and `cancel_booking` keep not-found (404) and
unauthorized (403) distinct; `confirm_booking` raises `BookingError` for
both, which `lambda_handler` maps — like every `BookingError` and
`TicketNotAvailableError` — to HTTP 409, so on the confirm path the two are
distinguishable only by their distinct messages, not by status code. -/
theorem c8_amended_error_classification (s s1 : St) (bid uid : String)
    (now : Nat) (q : List QMsg) (b : Booking) :
    (get_booking_by_id bid s = (none, s1) →
        get_booking bid uid s =
          (s1, create_response 404 (RespBody.err "Booking not found"))
        ∧ cancel_booking bid uid now s =
          (s1, create_response 404 (RespBody.err "Booking not found"))
        ∧ (¬bid = "" → (confirm_booking false ⟨some bid⟩ uid now s q).2.2 =
            Except.error (Err.bookingError "Booking not found")))
    ∧ (get_booking_by_id bid s = (some b, s1) → ¬b.user_id = uid →
        get_booking bid uid s =
          (s1, create_response 403 (RespBody.err "Unauthorized access"))
        ∧ cancel_booking bid uid now s =
          (s1, create_response 403 (RespBody.err "Unauthorized access"))
        ∧ (¬bid = "" → (confirm_booking false ⟨some bid⟩ uid now s q).2.2 =
            Except.error (Err.bookingError "Unauthorized access to booking")))
    ∧ (∀ m, (handle (Except.error (Err.bookingError m))).statusCode = 409)
    ∧ (∀ m, (handle (Except.error (Err.ticketNotAvailableError m))).statusCode = 409) := by
  refine ⟨?_, ?_, fun m => rfl, fun m => rfl⟩
  · intro h
    refine ⟨?_, ?_, ?_⟩
    · simp only [get_booking, h]
    · simp only [cancel_booking, h]
    · intro hbid
      have hb0 : (bid == "") = false := beq_eq_false_iff_ne.mpr hbid
      simp only [confirm_booking, hb0, h]
      simp only [Bool.false_eq_true, ite_false]
  · intro h hown
    have ho : (b.user_id == uid) = false := beq_eq_false_iff_ne.mpr hown
    refine ⟨?_, ?_, ?_⟩
    · simp only [get_booking, h, ho]
      simp only [Bool.not_false, if_true, ite_true]
    · simp only [cancel_booking, h, ho]
      simp only [Bool.not_false, if_true, ite_true]
    · intro hbid
      have hb0 : (bid == "") = false := beq_eq_false_iff_ne.mpr hbid
      simp only [confirm_booking, hb0, h, ho]
      simp only [Bool.false_eq_true, Bool.not_false, ite_false, if_true, ite_true]

/-! ### C2 -/

/-- The failing request of C2: 1 `vip` and 3 `standard` tickets, while the
store `sW` has 1 `vip` and only 2 `standard` available. -/
def reqMultiTier : ReserveReq :=
  { event_id := "e1", tickets := [⟨"vip", 1⟩, ⟨"standard", 3⟩] }

/-- C2 at the failing input: the `vip` ticket is reserved first, the
`standard` tier then fails its availability check, and the rollback that
the claim requires crashes — `rollback_reservations` reads the missing
`event_id` key of the snapshot dicts (handler.py builds them at lines
145-150 without it), the resulting `KeyError` escapes `except ClientError`,
the request surfaces a generic 500 instead of ticket-unavailable, and the
`vip` ticket stays reserved by the failed request. -/
theorem c2_code_bug_rollback_crashes :
    (reserve_tickets false reqMultiTier "u1" 0 "b1" sW []).2.2 =
      Except.error (Err.keyError "event_id")
    ∧ handle (reserve_tickets false reqMultiTier "u1" 0 "b1" sW []).2.2 =
        create_response 500 (RespBody.err "Internal server error")
    ∧ (findTicket (reserve_tickets false reqMultiTier "u1" 0 "b1" sW []).1.db
          "e1" "t1").map (fun t => (t.status, t.reserved_by)) =
        some ("reserved", some "u1")
    ∧ (reserve_tickets false reqMultiTier "u1" 0 "b1" sW []).1.db.bookings = [] :=
  ⟨rfl, rfl, by decide, by decide⟩

/-! ### C3 -/

/-- A store with ticket `t1` reserved by `u1`, as after a successful
conditional write of the failed attempt. -/
def dbRB : DB := { events := [], tickets := [tReserved], bookings := [] }

/-- C3 at the failing input: the snapshots that `reserve_tickets` hands to
`rollback_reservations` carry no `event_id` key, so the rollback raises
`KeyError` on its first ticket and releases nothing — the ticket reserved
in the attempt stays `reserved`, instead of being returned to `available`
by the `reserved_by`-conditioned write. -/
theorem c3_code_bug_rollback_releases_nothing :
    rollback_reservations
        [{ ticket_id := "t1", tier := "vip", price := 100, seat_number := "A1", event_id := none }]
        "u1" dbRB = (dbRB, some (Err.keyError "event_id"))
    ∧ (findTicket dbRB "e1" "t1").map (fun t => t.status) = some "reserved"
    ∧ (snapshotOf (mkAvailableTicket "t1" "vip" 100)).event_id = none := by
  decide

/-! ### C10 -/

/-- A failing SQS dispatch changes neither the state nor the response of
`reserve_tickets`, and leaves the queue as it was. -/
theorem reserve_tickets_sqs_independent (req : ReserveReq) (uid : String)
    (now : Nat) (nbid : String) (s : St) (q : List QMsg) :
    (reserve_tickets true req uid now nbid s q).1 =
        (reserve_tickets false req uid now nbid s q).1
    ∧ (reserve_tickets true req uid now nbid s q).2.2 =
        (reserve_tickets false req uid now nbid s q).2.2
    ∧ (reserve_tickets true req uid now nbid s q).2.1 = q := by
  simp only [reserve_tickets]
  rcases hv : validate_booking_request req with m | u
  · refine ⟨?_, ?_, ?_⟩ <;> trivial
  · rcases hc : get_user_active_bookings_count uid s with ⟨active, s1⟩
    by_cases hq : MAX_TICKETS_PER_USER <
        active + (req.tickets.map (fun r => r.quantity)).sum
    · simp only [if_pos hq]
      refine ⟨?_, ?_, ?_⟩ <;> trivial
    · simp only [if_neg hq]
      rcases he : get_event req.event_id s1 with ⟨ev?, s2⟩
      cases ev? with
      | none => refine ⟨?_, ?_, ?_⟩ <;> trivial
      | some ev =>
          cases hst : ev.status == "active" with
          | false =>
              simp only [hst, Bool.not_false, if_true, ite_true]
              refine ⟨?_, ?_, ?_⟩ <;> trivial
          | true =>
              simp only [hst, Bool.not_true, Bool.false_eq_true, if_false, ite_false]
              rcases hloop : reserveTiersLoop req.event_id uid now req.tickets [] 0 s2.db
                with ⟨db1, res⟩
              cases res with
              | error f =>
                  dsimp only
                  rcases hrb : rollback_reservations f.reserved uid db1 with ⟨db2, e2?⟩
                  simp only [hrb]
                  cases e2? <;> (refine ⟨?_, ?_, ?_⟩ <;> trivial)
              | ok pair =>
                  rcases pair with ⟨resv, amt⟩
                  refine ⟨?_, ?_, ?_⟩ <;> trivial

/-- A failing SQS dispatch changes neither the state nor the response of
`confirm_booking`, and leaves the queue as it was. -/
theorem confirm_booking_sqs_independent (body : ConfirmReq) (uid : String)
    (now : Nat) (s : St) (q : List QMsg) :
    (confirm_booking true body uid now s q).1 =
        (confirm_booking false body uid now s q).1
    ∧ (confirm_booking true body uid now s q).2.2 =
        (confirm_booking false body uid now s q).2.2
    ∧ (confirm_booking true body uid now s q).2.1 = q := by
  simp only [confirm_booking]
  rcases body with ⟨bid?⟩
  cases bid? with
  | none => refine ⟨?_, ?_, ?_⟩ <;> trivial
  | some bid =>
      cases hb : bid == "" with
      | true =>
          simp only [hb, if_true, ite_true]
          refine ⟨?_, ?_, ?_⟩ <;> trivial
      | false =>
          simp only [hb, Bool.false_eq_true, if_false, ite_false]
          rcases hg : get_booking_by_id bid s with ⟨b?, s1⟩
          cases b? with
          | none => refine ⟨?_, ?_, ?_⟩ <;> trivial
          | some b =>
              dsimp only
              cases ho : b.user_id == uid with
              | false =>
                  simp only [ho, Bool.not_false, if_true, ite_true]
                  refine ⟨?_, ?_, ?_⟩ <;> trivial
              | true =>
                  simp only [ho, Bool.not_true, Bool.false_eq_true, if_false, ite_false]
                  cases hs : b.status == "reserved" with
                  | false =>
                      simp only [hs, Bool.not_false, if_true, ite_true]
                      refine ⟨?_, ?_, ?_⟩ <;> trivial
                  | true =>
                      simp only [hs, Bool.not_true, Bool.false_eq_true, if_false, ite_false]
                      by_cases hexp : b.reserved_until < now
                      · simp only [if_pos hexp]
                        refine ⟨?_, ?_, ?_⟩ <;> trivial
                      · simp only [if_neg hexp]
                        refine ⟨?_, ?_, ?_⟩ <;> trivial

/-- C10: for both `reserve_tickets` and `confirm_booking`, a `ClientError`
from the SQS dispatch is swallowed by `send_to_queue`: the operation
performs the same state changes and returns the same response as a run
whose dispatch succeeds, and the queue receives nothing. -/
theorem c10_queue_failure_swallowed (req : ReserveReq) (uid : String)
    (now : Nat) (nbid : String) (s : St) (q : List QMsg) (body : ConfirmReq) :
    ((reserve_tickets true req uid now nbid s q).1 =
        (reserve_tickets false req uid now nbid s q).1
      ∧ (reserve_tickets true req uid now nbid s q).2.2 =
        (reserve_tickets false req uid now nbid s q).2.2
      ∧ (reserve_tickets true req uid now nbid s q).2.1 = q)
    ∧ ((confirm_booking true body uid now s q).1 =
        (confirm_booking false body uid now s q).1
      ∧ (confirm_booking true body uid now s q).2.2 =
        (confirm_booking false body uid now s q).2.2
      ∧ (confirm_booking true body uid now s q).2.1 = q) :=
  ⟨reserve_tickets_sqs_independent req uid now nbid s q,
    confirm_booking_sqs_independent body uid now s q⟩

end BookingHandler
